import Mathlib

/-!
Verification development for the second-brain journal summarisation engine.

The definitions below are a shallow embedding of the repository's Python
source (src/summaries.py, src/schedule.py, src/bot.py):
pure string manipulation is translated to Lean functions over `String` /
`List Char`, the SQLite store is an explicit value, the external
summarisation service is an explicit outcome parameter, and the file system
written by the summary sink is an association list from filenames to
contents.  Timestamps are modelled as integers on a linear local-time axis
with 86400 seconds per day.
-/

namespace SecondBrain

/-! ## Python string primitives

`str.strip`, `str.title` and `str.split(",")` as used by
`group_entries_by_category` (src/summaries.py line 88), modelled over
`List Char` for the ASCII inputs the code handles. -/

/-- Python `str.strip()`: drop whitespace from both ends. -/
def pyStrip (s : List Char) : List Char :=
  ((s.dropWhile Char.isWhitespace).reverse.dropWhile Char.isWhitespace).reverse

/-- Worker for `pyTitle`: the flag records whether the previous character
was cased, as Python `str.title()` upcases the first character of each
run of letters and downcases the rest. -/
def pyTitleAux : List Char → Bool → List Char
  | [], _ => []
  | c :: rest, prevCased =>
    if c.isAlpha then
      (if prevCased then c.toLower else c.toUpper) :: pyTitleAux rest true
    else
      c :: pyTitleAux rest false

/-- Python `str.title()` (ASCII letters). -/
def pyTitle (s : List Char) : List Char := pyTitleAux s false

/-- Worker for `pySplitComma`, accumulating the current piece reversed. -/
def pySplitCommaAux : List Char → List Char → List (List Char)
  | [], acc => [acc.reverse]
  | c :: rest, acc =>
    if c = ',' then acc.reverse :: pySplitCommaAux rest []
    else pySplitCommaAux rest (c :: acc)

/-- Python `str.split(",")`. -/
def pySplitComma (s : String) : List String :=
  (pySplitCommaAux s.data []).map String.mk

/-- The normalisation `cat.strip().title()` applied to each token in
`group_entries_by_category` (src/summaries.py line 88). -/
def normalizeToken (s : String) : String := String.mk (pyTitle (pyStrip s.data))

/-- `[cat.strip().title() for cat in cats.split(",")]`. -/
def entryCategories (cats : String) : List String :=
  (pySplitComma cats).map normalizeToken

/-! ## Category vocabulary (src/summaries.py lines 28-49) -/

/-- `ALLOWED_CATEGORIES`: the four categories with their definition strings,
kept in source (dict-insertion) order. -/
def ALLOWED_CATEGORIES : List (String × String) :=
  [("Work",
    "Work encompasses your professional and productive activities – whether that's a career, " ++
    "business, education, or other meaningful work. This includes professional growth, accomplishments, " ++
    "financial stability, and the skills you develop. It's about how you contribute value and earn your livelihood."),
   ("Health",
    "Health covers both physical and mental wellbeing. This means taking care of your body through exercise, " ++
    "nutrition, and rest, as well as maintaining emotional and psychological wellness through stress management, " ++
    "mindfulness, and mental health care. It's the foundation that enables everything else."),
   ("Relationships",
    "Relationships refers to all your human connections – family, friends, romantic partners, and community. " ++
    "This includes the quality of these relationships, how you nurture them, your social support system, and your " ++
    "ability to form and maintain meaningful bonds with others."),
   ("Purpose",
    "Purpose represents your sense of meaning and direction in life. This includes your values, beliefs, personal growth, " ++
    "and the impact you want to have on the world. It's about understanding why you do what you do and feeling that your " ++
    "life has significance beyond just daily tasks.")]

/-- `ALLOWED_CATEGORIES.keys()` in order. -/
def allowedKeys : List String := ALLOWED_CATEGORIES.map Prod.fst

/-! ## Entry store (src/database.py `transcriptions` table,
src/summaries.py `query_entries_since`) -/

/-- A row of the `transcriptions` table as `query_entries_since` selects it:
`(transcription, categories, keywords, timestamp)`. -/
structure Entry where
  transcription : String
  categories : String
  keywords : String
  timestamp : Int
deriving DecidableEq

/-- The SQLite store: either reachable with its rows, or failing
(the `except` path of `query_entries_since`). -/
inductive StoreState where
  | available (rows : List Entry)
  | unavailable
deriving DecidableEq

/-- `query_entries_since` (src/summaries.py lines 55-73): the SQL filter
`WHERE timestamp >= ?` on success; the exception handler logs and returns
`[]` when the store fails. -/
def query_entries_since (store : StoreState) (start_time : Int) : List Entry :=
  match store with
  | .available rows => rows.filter (fun e => start_time ≤ e.timestamp)
  | .unavailable => []

/-! ## Category aggregator (src/summaries.py `group_entries_by_category`) -/

/-- `grouped[cat].append(text)`: update the (unique) binding of `cat`. -/
def appendToKey : List (String × List String) → String → String → List (String × List String)
  | [], _, _ => []
  | p :: rest, cat, text =>
    if p.1 = cat then (p.1, p.2 ++ [text]) :: rest
    else p :: appendToKey rest cat text

/-- The inner loop of `group_entries_by_category`:
`for cat in entry_categories: if cat in ALLOWED_CATEGORIES: grouped[cat].append(transcription)`. -/
def processTokens (text : String) (tokens : List String)
    (grouped : List (String × List String)) : List (String × List String) :=
  tokens.foldl (fun g cat => if cat ∈ allowedKeys then appendToKey g cat text else g) grouped

/-- The body of the entry loop of `group_entries_by_category`, including the
`if cats:` guard (an empty categories string is falsy and skipped). -/
def processEntry (grouped : List (String × List String)) (e : Entry) :
    List (String × List String) :=
  if e.categories = "" then grouped
  else processTokens e.transcription (entryCategories e.categories) grouped

/-- `{category: [] for category in ALLOWED_CATEGORIES.keys()}`. -/
def initPools : List (String × List String) :=
  allowedKeys.map (fun k => (k, ([] : List String)))

/-- `group_entries_by_category` (src/summaries.py lines 75-92). -/
def group_entries_by_category (entries : List Entry) : List (String × List String) :=
  entries.foldl processEntry initPools

/-- Python `dict.get(k, [])` on the grouped pools (keys are unique, so the
first binding is the binding). -/
def dictGet : List (String × List String) → String → List String
  | [], _ => []
  | p :: rest, k => if p.1 == k then p.2 else dictGet rest k

/-- What one entry text contributes to category `c` through its token list:
one verbatim copy per token that normalised to `c`. -/
def tokenContrib (c text : String) (tokens : List String) : List String :=
  (tokens.filter (fun tok => tok == c)).map (fun _ => text)

/-- What one entry contributes to category `c` (nothing when its categories
string is empty, matching the `if cats:` guard). -/
def entryContrib (c : String) (e : Entry) : List String :=
  if e.categories = "" then []
  else tokenContrib c e.transcription (entryCategories e.categories)

/-- The pool of category `c` described entry by entry, in entry order. -/
def poolSpec (c : String) : List Entry → List String
  | [] => []
  | e :: rest => entryContrib c e ++ poolSpec c rest

/-! ## Summarisation driver (src/summaries.py `generate_summary_for_category`) -/

/-- How the service reply fares in the `try` block: `json.loads` raises
(`malformed`), the parsed value is not a dict so `.get` raises
(`nonObject`), or it is a dict whose optional `"summary"` field is given. -/
inductive ReplyParse where
  | malformed
  | nonObject
  | object (summaryField : Option String)
deriving DecidableEq

/-- One invocation of the external service: the API call raises (transport
error, timeout), or returns a reply classified by `ReplyParse`. -/
inductive ServiceOutcome where
  | error
  | success (reply : ReplyParse)
deriving DecidableEq

/-- The reply handling inside the `try` block (src/summaries.py lines
137-142): an exception is `Except.error`, otherwise
`data.get("summary", "Summary not provided in expected format.")`. -/
def parse_reply : ReplyParse → Except Unit String
  | .malformed => .error ()
  | .nonObject => .error ()
  | .object none => .ok "Summary not provided in expected format."
  | .object (some s) => .ok s

/-- `generate_summary_for_category` (src/summaries.py lines 98-145), paired
with the number of service calls it makes: the empty-pool short circuit
makes none; every other path makes exactly the one `openai.ChatCompletion`
call, whose exceptions the `except` handler maps to the fallback string. -/
def generate_summary_for_category_run (category : String) (texts : List String)
    (outcome : ServiceOutcome) : String × Nat :=
  if texts.isEmpty then ("No entries for " ++ category ++ ".", 0)
  else
    match outcome with
    | .error => ("Summary generation failed.", 1)
    | .success r =>
      match parse_reply r with
      | .error _ => ("Summary generation failed.", 1)
      | .ok s => (s, 1)

/-- The string `generate_summary_for_category` returns. -/
def generate_summary_for_category (category : String) (texts : List String)
    (outcome : ServiceOutcome) : String :=
  (generate_summary_for_category_run category texts outcome).1

/-! ## Window summary builders (src/summaries.py lines 151-198)

`now` is the local time in seconds; `outcomes` gives the external service's
behaviour on the one call made for each category. -/

/-- `datetime(now.year, now.month, now.day)`: the start of the current
calendar day on the linear local-time axis. -/
def startOfDay (now : Int) : Int := now - now % 86400

/-- `generate_daily_summary` (src/summaries.py lines 151-166). -/
def generate_daily_summary (now : Int) (store : StoreState)
    (outcomes : String → ServiceOutcome) : List (String × String) :=
  let start_time := startOfDay now
  let entries := query_entries_since store start_time
  let grouped := group_entries_by_category entries
  allowedKeys.map (fun category =>
    (category, generate_summary_for_category category (dictGet grouped category) (outcomes category)))

/-- `generate_weekly_summary` (src/summaries.py lines 168-182):
`start_time = now - timedelta(days=7)`. -/
def generate_weekly_summary (now : Int) (store : StoreState)
    (outcomes : String → ServiceOutcome) : List (String × String) :=
  let start_time := now - 7 * 86400
  let entries := query_entries_since store start_time
  let grouped := group_entries_by_category entries
  allowedKeys.map (fun category =>
    (category, generate_summary_for_category category (dictGet grouped category) (outcomes category)))

/-- `generate_monthly_summary` (src/summaries.py lines 184-198):
`start_time = now - timedelta(days=30)`. -/
def generate_monthly_summary (now : Int) (store : StoreState)
    (outcomes : String → ServiceOutcome) : List (String × String) :=
  let start_time := now - 30 * 86400
  let entries := query_entries_since store start_time
  let grouped := group_entries_by_category entries
  allowedKeys.map (fun category =>
    (category, generate_summary_for_category category (dictGet grouped category) (outcomes category)))

/-- The common window pipeline of spec section 4.5, parameterised by the
window's start time: fetch, group, then drive each vocabulary category
independently. -/
def buildWindowSummary (start_time : Int) (store : StoreState)
    (outcomes : String → ServiceOutcome) : List (String × String) :=
  let entries := query_entries_since store start_time
  let grouped := group_entries_by_category entries
  allowedKeys.map (fun category =>
    (category, generate_summary_for_category category (dictGet grouped category) (outcomes category)))

/-! ## Summary sink (src/summaries.py `save_summary_to_file`) and the
scheduler jobs (src/schedule.py)

The file system is an association list from filenames to file contents.
`open(filename, "w")` truncates the target and `json.dump` then streams the
serialised document into it, so a write either succeeds (`ok`), fails at
`open` leaving the target untouched (`openFail`), or fails during the dump
after `n` characters were written to the truncated file (`dumpFail n`).
Either failure is caught by the `except` handler, which only logs. -/

/-- Contents of the summary directory: filename to file contents. -/
def FS : Type := List (String × String)

/-- Reading a file of the summary directory. -/
def readFile : FS → String → Option String
  | [], _ => none
  | p :: rest, filename => if p.1 == filename then some p.2 else readFile rest filename

/-- A whole-file write: replace the contents bound to `filename`, or create
the file. -/
def writeWhole : FS → String → String → FS
  | [], filename, contents => [(filename, contents)]
  | p :: rest, filename, contents =>
    if p.1 == filename then (filename, contents) :: rest
    else p :: writeWhole rest filename contents

/-- How one `open` + `json.dump` pair behaves. -/
inductive WriteBehavior where
  | ok
  | openFail
  | dumpFail (n : Nat)
deriving DecidableEq

/-- `save_summary_to_file` (src/summaries.py lines 204-213): `doc` is the
serialised summary. The result pairs the new file system with the value the
caller receives - `()` on every path, because the `except` handler swallows
the exception and the function returns `None` either way. -/
def save_summary_to_file (fs : FS) (doc : String) (filename : String)
    (b : WriteBehavior) : FS × Unit :=
  match b with
  | .ok => (writeWhole fs filename doc, ())
  | .openFail => (fs, ())
  | .dumpFail n => (writeWhole fs filename (String.mk (doc.data.take n)), ())

/-- A character `0`-`9` for a decimal digit, as `strftime` prints it. -/
def digitChar : Nat → Char
  | 0 => '0' | 1 => '1' | 2 => '2' | 3 => '3' | 4 => '4'
  | 5 => '5' | 6 => '6' | 7 => '7' | 8 => '8' | 9 => '9'
  | _ => '?'

/-- `strftime` `%m` / `%d`: two digits, zero padded. -/
def pad2 (n : Nat) : List Char := [digitChar (n / 10), digitChar (n % 10)]

/-- `strftime` `%Y` for four-digit years. -/
def pad4 (n : Nat) : List Char :=
  [digitChar (n / 1000), digitChar (n / 100 % 10), digitChar (n / 10 % 10), digitChar (n % 10)]

/-- A calendar date as `datetime.now()` carries it. -/
structure Date where
  year : Nat
  month : Nat
  day : Nat
deriving DecidableEq

/-- A date `strftime('%Y%m%d')` prints faithfully: four-digit year, real
month and day. -/
abbrev ValidDate (d : Date) : Prop :=
  1000 ≤ d.year ∧ d.year ≤ 9999 ∧ 1 ≤ d.month ∧ d.month ≤ 12 ∧ 1 ≤ d.day ∧ d.day ≤ 31

/-- `datetime.now().strftime('%Y%m%d')`. -/
def dateCode (d : Date) : String :=
  String.mk (pad4 d.year ++ pad2 d.month ++ pad2 d.day)

/-- The sink destination `f"{kind}_summary_{date}.json"` used by the three
jobs in src/schedule.py. -/
def summary_filename (kind : String) (d : Date) : String :=
  kind ++ "_summary_" ++ dateCode d ++ ".json"

/-- `json.dump` escaping of the characters the entries may contain. -/
def jsonEscapeChar (c : Char) : List Char :=
  if c = '"' then ['\\', '"']
  else if c = '\\' then ['\\', '\\']
  else if c = '\n' then ['\\', 'n']
  else if c = '\t' then ['\\', 't']
  else if c = '\r' then ['\\', 'r']
  else [c]

/-- `json.dump` escaping of one string. -/
def jsonEscape (s : String) : String := String.mk (s.data.flatMap jsonEscapeChar)

/-- `json.dump(summary, f, indent=4)` on the summary dictionary (string keys
to string values, insertion order preserved). -/
def json_dumps_indent4 (m : List (String × String)) : String :=
  if m.isEmpty then "\x7b\x7d"
  else
    "\x7b\n" ++
    String.intercalate ",\n"
      (m.map (fun p => "    \"" ++ jsonEscape p.1 ++ "\": \"" ++ jsonEscape p.2 ++ "\"")) ++
    "\n\x7d"

/-- `schedule_daily_summary` (src/schedule.py lines 26-31): generate the
daily summary, serialise it and save it under
`daily_summary_<YYYYMMDD>.json` for the current date. -/
def schedule_daily_summary (fs : FS) (now : Int) (today : Date) (store : StoreState)
    (outcomes : String → ServiceOutcome) (b : WriteBehavior) : FS :=
  (save_summary_to_file fs (json_dumps_indent4 (generate_daily_summary now store outcomes))
    (summary_filename "daily" today) b).1

/-- `schedule_weekly_summary` (src/schedule.py lines 33-38). -/
def schedule_weekly_summary (fs : FS) (now : Int) (today : Date) (store : StoreState)
    (outcomes : String → ServiceOutcome) (b : WriteBehavior) : FS :=
  (save_summary_to_file fs (json_dumps_indent4 (generate_weekly_summary now store outcomes))
    (summary_filename "weekly" today) b).1

/-- `schedule_monthly_summary` (src/schedule.py lines 40-45). -/
def schedule_monthly_summary (fs : FS) (now : Int) (today : Date) (store : StoreState)
    (outcomes : String → ServiceOutcome) (b : WriteBehavior) : FS :=
  (save_summary_to_file fs (json_dumps_indent4 (generate_monthly_summary now store outcomes))
    (summary_filename "monthly" today) b).1

/-! ## The bot's own monthly summary and manual trigger path (src/bot.py)

src/bot.py builds its monthly summary itself (lines 324-364) and serves
manual `/daily`, `/weekly`, `/monthly` triggers through `send_summary`
(lines 366-443).  Two names its bodies use are missing from the module:
`generate_daily_summary` / `generate_weekly_summary` (their import on line
30 is commented out and bot.py defines neither), and `DB_NAME` (used at
line 327, defined only in summaries.py / database.py and never imported
into bot.py).  Every reference to a missing name raises `NameError` inside
the surrounding `try` block. -/

/-- A row of the shape the bot's monthly query names
(`categories, transcription, timestamp`, with `date` standing for the
`strftime("%Y-%m-%d")` rendering).  It only serves as the type of the
store-contents parameter below, which the bot's replies provably ignore:
the query never executes. -/
structure BotRow where
  categories : String
  transcription : String
  date : String
deriving DecidableEq

/-- `generate_monthly_summary` of src/bot.py (lines 324-364).
`sqlite3.connect(DB_NAME)` at line 327 raises `NameError` on every call -
`DB_NAME` is neither defined in bot.py nor imported - so the `try` block
dies before any query runs, the handler at line 362 logs, and the function
returns the Error mapping whatever the store holds.  The rows the query
would have returned (`rows`, with `none` for an unreachable store) are
therefore ignored; the zero-entry "No Entries" branch and the grouping loop
of lines 341-360 are dead code. -/
def bot_generate_monthly_summary (rows : Option (List BotRow)) : List (String × String) :=
  [("Error", "Could not generate monthly summary.")]

/-- Whether the summary dict has the key (`"Error" in summary`). -/
def hasKey (m : List (String × String)) (k : String) : Bool :=
  m.any (fun p => p.1 == k)

/-- `summary[k]` for a key known to be present (`""` otherwise). -/
def getKey : List (String × String) → String → String
  | [], _ => ""
  | p :: rest, k => if p.1 == k then p.2 else getKey rest k

/-- The message assembly of `send_summary` (src/bot.py lines 390-414).
`summary["Categories"]` would be a string here, so `.items()` on it raises:
that branch is `Except.error`, caught by the outer handler. -/
def formatSummaryMessage (title : String) (summary : List (String × String)) :
    Except Unit String :=
  if hasKey summary "Error" then .ok ("❌ " ++ getKey summary "Error")
  else
    let m := title ++ "\n\n"
    let m := if hasKey summary "Overview"
      then m ++ "*Overview*\n" ++ getKey summary "Overview" ++ "\n\n" else m
    let m := if hasKey summary "Themes"
      then m ++ "*Key Themes*\n" ++ getKey summary "Themes" ++ "\n\n" else m
    if hasKey summary "Categories" then .error ()
    else .ok (if hasKey summary "Insights"
      then m ++ "*Insights & Suggestions*\n" ++ getKey summary "Insights" else m)

/-- What a manual trigger can come back with.  `busy` is the rejection
signal of spec section 7; the constructors below are what the code can
actually produce: the edited message, or the generic error reply of the
`except` handler. -/
inductive BotReply where
  | busy
  | sent (message : String)
  | errorReply (message : String)
deriving DecidableEq

/-- `send_summary` (src/bot.py lines 366-443) for a manual trigger.
`scheduledRunning` says whether a scheduled job of the same kind is
`Running` at that moment; the source consults no such state, so the body
never reads it.  The `daily` and `weekly` branches hit the `NameError` of
the missing imports; `monthly` formats `bot_generate_monthly_summary`. -/
def send_summary (scheduledRunning : Bool) (summary_type : String)
    (rows : Option (List BotRow)) : BotReply :=
  if summary_type = "daily" then
    .errorReply "Sorry, I couldn't generate the daily summary. Please try again later."
  else if summary_type = "weekly" then
    .errorReply "Sorry, I couldn't generate the weekly summary. Please try again later."
  else
    match formatSummaryMessage "📋 *Your Month in Review*" (bot_generate_monthly_summary rows) with
    | .ok message => .sent message
    | .error _ =>
      .errorReply ("Sorry, I couldn't generate the " ++ summary_type ++ " summary. Please try again later.")

/-! ## Helper lemmas -/

theorem keys_appendToKey (m : List (String × List String)) (cat text : String) :
    (appendToKey m cat text).map Prod.fst = m.map Prod.fst := by
  induction m with
  | nil => rfl
  | cons p rest ih =>
    by_cases h : p.1 = cat
    · simp [appendToKey, h]
    · simp [appendToKey, h, ih]

theorem dictGet_appendToKey_self (t : String) :
    ∀ (m : List (String × List String)) (c : String), c ∈ m.map Prod.fst →
      dictGet (appendToKey m c t) c = dictGet m c ++ [t]
  | [], c, h => by simp at h
  | p :: rest, c, h => by
    by_cases hp : p.1 = c
    · simp [appendToKey, hp, dictGet]
    · have hmem : c ∈ rest.map Prod.fst := by
        simp only [List.map_cons, List.mem_cons] at h
        exact h.resolve_left (fun hc => hp hc.symm)
      simp [appendToKey, hp, dictGet, dictGet_appendToKey_self t rest c hmem]

theorem dictGet_appendToKey_ne (t : String) :
    ∀ (m : List (String × List String)) (c k : String), c ≠ k →
      dictGet (appendToKey m k t) c = dictGet m c
  | [], _, _, _ => rfl
  | p :: rest, c, k, hne => by
    by_cases hp : p.1 = k
    · simp [appendToKey, hp, dictGet, Ne.symm hne]
    · by_cases hc : p.1 = c
      · simp [appendToKey, hp, hc, dictGet, hne]
      · simp [appendToKey, hp, hc, dictGet, dictGet_appendToKey_ne t rest c k hne]

theorem keys_processTokens (text : String) :
    ∀ (tokens : List String) (g : List (String × List String)),
      (processTokens text tokens g).map Prod.fst = g.map Prod.fst
  | [], _ => rfl
  | tok :: rest, g => by
    simp only [processTokens, List.foldl_cons]
    have ih := keys_processTokens text rest
      (if tok ∈ allowedKeys then appendToKey g tok text else g)
    simp only [processTokens] at ih
    rw [ih]
    by_cases h : tok ∈ allowedKeys
    · simp [h, keys_appendToKey]
    · simp [h]

theorem keys_processEntry (g : List (String × List String)) (e : Entry) :
    (processEntry g e).map Prod.fst = g.map Prod.fst := by
  by_cases h : e.categories = ""
  · simp [processEntry, h]
  · simp [processEntry, h, keys_processTokens]

theorem keys_foldl_processEntry :
    ∀ (entries : List Entry) (g : List (String × List String)),
      (entries.foldl processEntry g).map Prod.fst = g.map Prod.fst
  | [], _ => rfl
  | e :: rest, g => by
    rw [List.foldl_cons, keys_foldl_processEntry rest, keys_processEntry]

theorem keys_initPools : initPools.map Prod.fst = allowedKeys := by
  simp [initPools, List.map_map, Function.comp_def]

theorem keys_group (entries : List Entry) :
    (group_entries_by_category entries).map Prod.fst = allowedKeys := by
  rw [group_entries_by_category, keys_foldl_processEntry, keys_initPools]

theorem dictGet_keyInit :
    ∀ (l : List String) (c : String),
      dictGet (l.map (fun k => (k, ([] : List String)))) c = []
  | [], _ => rfl
  | k :: rest, c => by
    by_cases h : k = c
    · simp [dictGet, h]
    · simp [dictGet, h, dictGet_keyInit rest c]

theorem dictGet_initPools (c : String) : dictGet initPools c = [] :=
  dictGet_keyInit allowedKeys c

theorem dictGet_processTokens (text : String) :
    ∀ (tokens : List String) (g : List (String × List String)) (c : String),
      c ∈ allowedKeys → c ∈ g.map Prod.fst →
      dictGet (processTokens text tokens g) c = dictGet g c ++ tokenContrib c text tokens
  | [], g, c, _, _ => by simp [processTokens, tokenContrib]
  | tok :: rest, g, c, hc, hg => by
    simp only [processTokens, List.foldl_cons]
    by_cases htok : tok = c
    · subst htok
      have hstep : (if tok ∈ allowedKeys then appendToKey g tok text else g)
          = appendToKey g tok text := if_pos hc
      rw [hstep]
      have ih := dictGet_processTokens text rest (appendToKey g tok text) tok hc
        (by rw [keys_appendToKey]; exact hg)
      simp only [processTokens] at ih
      rw [ih, dictGet_appendToKey_self text g tok hg]
      simp [tokenContrib, List.append_assoc]
    · have hkeys : (if tok ∈ allowedKeys then appendToKey g tok text else g).map Prod.fst
          = g.map Prod.fst := by
        by_cases h : tok ∈ allowedKeys
        · simp [h, keys_appendToKey]
        · simp [h]
      have ih := dictGet_processTokens text rest
        (if tok ∈ allowedKeys then appendToKey g tok text else g) c hc (hkeys ▸ hg)
      simp only [processTokens] at ih
      rw [ih]
      have hsame : dictGet (if tok ∈ allowedKeys then appendToKey g tok text else g) c
          = dictGet g c := by
        by_cases h : tok ∈ allowedKeys
        · rw [if_pos h]; exact dictGet_appendToKey_ne text g c tok (fun hh => htok hh.symm)
        · rw [if_neg h]
      rw [hsame]
      have : (tok == c) = false := by simpa using htok
      simp [tokenContrib, this]

theorem dictGet_processEntry (g : List (String × List String)) (e : Entry) (c : String)
    (hc : c ∈ allowedKeys) (hg : c ∈ g.map Prod.fst) :
    dictGet (processEntry g e) c = dictGet g c ++ entryContrib c e := by
  by_cases h : e.categories = ""
  · simp [processEntry, h, entryContrib]
  · simp only [processEntry, if_neg h, entryContrib]
    exact dictGet_processTokens e.transcription (entryCategories e.categories) g c hc hg

theorem dictGet_foldl_processEntry (c : String) (hc : c ∈ allowedKeys) :
    ∀ (entries : List Entry) (g : List (String × List String)), c ∈ g.map Prod.fst →
      dictGet (entries.foldl processEntry g) c = dictGet g c ++ poolSpec c entries
  | [], g, _ => by simp [poolSpec]
  | e :: rest, g, hg => by
    rw [List.foldl_cons]
    have ih := dictGet_foldl_processEntry c hc rest (processEntry g e)
      (by rw [keys_processEntry]; exact hg)
    rw [ih, dictGet_processEntry g e c hc hg, poolSpec, List.append_assoc]

theorem dictGet_group_eq_poolSpec (entries : List Entry) (c : String)
    (hc : c ∈ allowedKeys) :
    dictGet (group_entries_by_category entries) c = poolSpec c entries := by
  rw [group_entries_by_category,
    dictGet_foldl_processEntry c hc entries initPools (by rw [keys_initPools]; exact hc),
    dictGet_initPools, List.nil_append]

theorem map_const_replicate (t : String) :
    ∀ (l : List String), l.map (fun _ => t) = List.replicate l.length t
  | [] => rfl
  | a :: l => by simp [map_const_replicate t l, List.replicate_succ]

theorem readFile_writeWhole_self :
    ∀ (fs : FS) (k v : String), readFile (writeWhole fs k v) k = some v
  | [], k, v => by simp [writeWhole, readFile]
  | p :: rest, k, v => by
    by_cases h : p.1 = k
    · simp [writeWhole, readFile, h]
    · simp [writeWhole, readFile, h, readFile_writeWhole_self rest k v]

theorem readFile_writeWhole_ne :
    ∀ (fs : FS) (k k' v : String), k' ≠ k →
      readFile (writeWhole fs k v) k' = readFile fs k'
  | [], k, k', v, hne => by simp [writeWhole, readFile, Ne.symm hne]
  | p :: rest, k, k', v, hne => by
    by_cases h : p.1 = k
    · simp [writeWhole, readFile, h, Ne.symm hne]
    · by_cases hc : p.1 = k'
      · simp [writeWhole, readFile, h, hc, hne]
      · simp [writeWhole, readFile, h, hc, readFile_writeWhole_ne rest k k' v hne]

theorem digitChar_injOn : ∀ a < 10, ∀ b < 10, digitChar a = digitChar b → a = b := by
  decide

theorem dateCode_inj {d1 d2 : Date} (h1 : ValidDate d1) (h2 : ValidDate d2)
    (h : dateCode d1 = dateCode d2) : d1 = d2 := by
  obtain ⟨y1, m1, dd1⟩ := d1
  obtain ⟨y2, m2, dd2⟩ := d2
  obtain ⟨hy1, hy1b, hm1, hm1b, hd1, hd1b⟩ := h1
  obtain ⟨hy2, hy2b, hm2, hm2b, hd2, hd2b⟩ := h2
  dsimp only at hy1 hy1b hm1 hm1b hd1 hd1b hy2 hy2b hm2 hm2b hd2 hd2b
  have hd := congrArg String.data h
  simp only [dateCode, pad4, pad2, List.cons_append, List.nil_append,
    List.cons.injEq, and_true] at hd
  obtain ⟨e1, e2, e3, e4, e5, e6, e7, e8⟩ := hd
  have g1 := digitChar_injOn _ (by omega) _ (by omega) e1
  have g2 := digitChar_injOn _ (by omega) _ (by omega) e2
  have g3 := digitChar_injOn _ (by omega) _ (by omega) e3
  have g4 := digitChar_injOn _ (by omega) _ (by omega) e4
  have g5 := digitChar_injOn _ (by omega) _ (by omega) e5
  have g6 := digitChar_injOn _ (by omega) _ (by omega) e6
  have g7 := digitChar_injOn _ (by omega) _ (by omega) e7
  have g8 := digitChar_injOn _ (by omega) _ (by omega) e8
  have hY : y1 = y2 := by omega
  have hM : m1 = m2 := by omega
  have hD : dd1 = dd2 := by omega
  subst hY
  subst hM
  subst hD
  rfl

theorem summary_filename_inj (kind : String) {d1 d2 : Date}
    (h1 : ValidDate d1) (h2 : ValidDate d2) (hne : d1 ≠ d2) :
    summary_filename kind d1 ≠ summary_filename kind d2 := by
  intro h
  apply hne
  apply dateCode_inj h1 h2
  have hd := congrArg String.data h
  simp only [summary_filename, String.data_append, List.append_assoc] at hd
  have hd2 := List.append_cancel_left hd
  have hd3 := List.append_cancel_left hd2
  have hd4 := List.append_cancel_right hd3
  exact String.ext hd4

/-! ## Claim theorems -/

/-- C1 (amended): in src/summaries.py, the aggregation step and all three
window summary builds produce mappings whose key set is exactly the four
vocabulary categories Work, Health, Relationships, Purpose, in order,
regardless of the input entries (including zero entries, via
`StoreState.unavailable` or an empty store).  The bot's own monthly build
does not keep this invariant - see the counterexample. -/
theorem summary_key_set_invariant (entries : List Entry) (now : Int) (store : StoreState)
    (outcomes : String → ServiceOutcome) :
    (group_entries_by_category entries).map Prod.fst = allowedKeys
    ∧ (generate_daily_summary now store outcomes).map Prod.fst = allowedKeys
    ∧ (generate_weekly_summary now store outcomes).map Prod.fst = allowedKeys
    ∧ (generate_monthly_summary now store outcomes).map Prod.fst = allowedKeys := by
  refine ⟨keys_group entries, ?_, ?_, ?_⟩ <;>
    simp [generate_daily_summary, generate_weekly_summary, generate_monthly_summary,
      List.map_map, Function.comp_def]

/-- C1 counterexample: the monthly window build of src/bot.py (lines
324-364), named as a source of the claim, violates the key-set invariant -
also with zero entries in the store: because `DB_NAME` is undefined in
bot.py, every call raises `NameError` into the `except` handler and the
mapping produced has the single key "Error", never the four vocabulary
categories. -/
theorem bot_monthly_key_set_counterexample :
    bot_generate_monthly_summary (some [])
      = [("Error", "Could not generate monthly summary.")]
    ∧ (bot_generate_monthly_summary (some [])).map Prod.fst ≠ allowedKeys :=
  ⟨rfl, by decide⟩

/-- C2: the pool of every vocabulary category `c` is exactly, entry by
entry, one verbatim copy of the entry's full text per categories-string
token that normalises (trim + title-case) to `c` - so an entry listing
several matching labels contributes its full text independently to each
matching pool, and a token that matches no vocabulary category (it differs
from every `c ∈ allowedKeys`) contributes to no pool. -/
theorem grouped_pool_characterization (entries : List Entry) (c : String)
    (hc : c ∈ allowedKeys) :
    dictGet (group_entries_by_category entries) c = poolSpec c entries :=
  dictGet_group_eq_poolSpec entries c hc

/-- Witness for C2 at the spec's own example: an entry categorised
"work, health" lands verbatim in both the Work and Health pools, and an
entry categorised "Unknown" lands in no pool. -/
theorem grouped_pool_characterization_witness :
    ("Work" ∈ allowedKeys)
    ∧ dictGet (group_entries_by_category [⟨"did work and ran", "work, health", "", 0⟩]) "Work"
        = poolSpec "Work" [⟨"did work and ran", "work, health", "", 0⟩]
    ∧ poolSpec "Work" [⟨"did work and ran", "work, health", "", 0⟩] = ["did work and ran"]
    ∧ poolSpec "Health" [⟨"did work and ran", "work, health", "", 0⟩] = ["did work and ran"]
    ∧ poolSpec "Purpose" [⟨"talked", "Unknown", "", 0⟩] = [] :=
  ⟨by decide, grouped_pool_characterization _ _ (by decide), by decide, by decide, by decide⟩

/-- C3: the window-to-start-time mapping is fixed - daily queries from the
start of the current calendar day, weekly from now minus 7 days, monthly
from now minus 30 days - and the start time is inclusive: an entry with
timestamp exactly equal to the start time is selected. -/
theorem window_start_times (now : Int) (store : StoreState)
    (outcomes : String → ServiceOutcome) :
    generate_daily_summary now store outcomes
      = buildWindowSummary (startOfDay now) store outcomes
    ∧ generate_weekly_summary now store outcomes
      = buildWindowSummary (now - 7 * 86400) store outcomes
    ∧ generate_monthly_summary now store outcomes
      = buildWindowSummary (now - 30 * 86400) store outcomes
    ∧ ∀ (rows : List Entry) (start : Int) (e : Entry),
        e ∈ query_entries_since (.available rows) start ↔ e ∈ rows ∧ start ≤ e.timestamp := by
  refine ⟨rfl, rfl, rfl, fun rows start e => ?_⟩
  simp [query_entries_since, List.mem_filter]

/-- C4 counterexample: a service reply that is valid JSON but lacks the
"summary" field makes the driver return
"Summary not provided in expected format.", not the fixed fallback string
the claim names. -/
theorem missing_summary_field_counterexample :
    generate_summary_for_category "Work" ["x"] (.success (.object none))
      = "Summary not provided in expected format."
    ∧ generate_summary_for_category "Work" ["x"] (.success (.object none))
      ≠ "Summary generation failed." :=
  ⟨rfl, by decide⟩

/-- C4 (amended): for a non-empty pool the driver never raises; a transport
error, timeout, non-JSON reply or JSON non-object reply yields the fixed
fallback "Summary generation failed.", while a JSON object lacking the
"summary" field yields "Summary not provided in expected format.", and an
object carrying the field yields its value. -/
theorem driver_fallback_amended (category : String) (texts : List String)
    (outcome : ServiceOutcome) (h : texts ≠ []) :
    ((outcome = .error ∨ outcome = .success .malformed ∨ outcome = .success .nonObject) →
      generate_summary_for_category category texts outcome = "Summary generation failed.")
    ∧ generate_summary_for_category category texts (.success (.object none))
        = "Summary not provided in expected format."
    ∧ ∀ s, generate_summary_for_category category texts (.success (.object (some s))) = s := by
  cases texts with
  | nil => exact absurd rfl h
  | cons a l =>
    refine ⟨?_, rfl, fun s => rfl⟩
    rintro (rfl | rfl | rfl) <;> rfl

/-- Witness for C4: a transport-level failure on a non-empty pool returns
the fixed fallback string. -/
theorem driver_fallback_amended_witness :
    (["x"] : List String) ≠ []
    ∧ generate_summary_for_category "Work" ["x"] .error = "Summary generation failed." :=
  ⟨by decide, (driver_fallback_amended "Work" ["x"] .error (by decide)).1 (Or.inl rfl)⟩

/-- C5: with an empty text pool the driver short-circuits to exactly
"No entries for <category>." and makes zero calls to the external
summarisation service. -/
theorem empty_pool_short_circuit (category : String) (outcome : ServiceOutcome) :
    generate_summary_for_category_run category [] outcome
      = ("No entries for " ++ category ++ ".", 0)
    ∧ generate_summary_for_category category [] outcome
      = "No entries for " ++ category ++ "." :=
  ⟨rfl, rfl⟩

/-- C6 counterexample: on store failure `query_entries_since` returns a
value identical to its answer on an empty store, so no StoreUnavailable
condition reaches the caller; the daily build then returns exactly the four
"No entries for ..." pairs and nothing else - no diagnostic flag of any
kind is carried. -/
theorem store_failure_counterexample :
    query_entries_since .unavailable 0 = query_entries_since (.available []) 0
    ∧ generate_daily_summary 0 .unavailable (fun _ => .error)
      = generate_daily_summary 0 (.available []) (fun _ => .error)
    ∧ generate_daily_summary 0 .unavailable (fun _ => .error)
      = [("Work", "No entries for Work."), ("Health", "No entries for Health."),
         ("Relationships", "No entries for Relationships."), ("Purpose", "No entries for Purpose.")] :=
  ⟨rfl, rfl, by decide⟩

/-- C6 (amended): on store failure the accessor logs and returns the empty
sequence with no error value for the caller, and the window build completes
with the all-"no entries" summary - indistinguishable from a build over an
empty store and carrying no diagnostic flag. -/
theorem store_failure_amended (start now : Int) (outcomes : String → ServiceOutcome) :
    query_entries_since .unavailable start = []
    ∧ generate_daily_summary now .unavailable outcomes
      = allowedKeys.map (fun c => (c, "No entries for " ++ c ++ "."))
    ∧ generate_daily_summary now .unavailable outcomes
      = generate_daily_summary now (.available []) outcomes := by
  refine ⟨rfl, ?_, rfl⟩
  show allowedKeys.map (fun category =>
      (category, generate_summary_for_category category
        (dictGet (group_entries_by_category
          (query_entries_since .unavailable (startOfDay now))) category)
        (outcomes category))) = _
  refine List.map_congr_left fun c _ => ?_
  have h0 : dictGet (group_entries_by_category
      (query_entries_since .unavailable (startOfDay now))) c = [] := dictGet_initPools c
  rw [h0]
  rfl

/-- C7 counterexample: a `json.dump` failure after three characters leaves
the truncated partial document "NEW" in place of the prior summary "OLD",
and the caller receives exactly the same unit return as on a successful
write - the failure is not reported and the write is not all-or-nothing. -/
theorem sink_partial_write_counterexample :
    (save_summary_to_file [("daily_summary_20250101.json", "OLD")] "NEWDOC"
        "daily_summary_20250101.json" (.dumpFail 3)).2
      = (save_summary_to_file [("daily_summary_20250101.json", "OLD")] "NEWDOC"
        "daily_summary_20250101.json" .ok).2
    ∧ readFile (save_summary_to_file [("daily_summary_20250101.json", "OLD")] "NEWDOC"
        "daily_summary_20250101.json" (.dumpFail 3)).1 "daily_summary_20250101.json"
      = some "NEW"
    ∧ ("NEW" : String) ≠ "OLD" ∧ ("NEW" : String) ≠ "NEWDOC" :=
  ⟨rfl, by decide, by decide, by decide⟩

/-- C7 (amended): `save_summary_to_file` catches every write failure and
returns the same unit value as on success, so the caller cannot observe the
failure; an `open` failure leaves every prior document intact, a successful
write stores the whole document, but a failure during `json.dump` leaves
the truncated prefix of the document in place, because `open(..., "w")`
truncated the target first. -/
theorem sink_write_amended (fs : FS) (doc filename : String) (n : Nat) :
    readFile (save_summary_to_file fs doc filename .ok).1 filename = some doc
    ∧ (∀ k, readFile (save_summary_to_file fs doc filename .openFail).1 k = readFile fs k)
    ∧ readFile (save_summary_to_file fs doc filename (.dumpFail n)).1 filename
      = some (String.mk (doc.data.take n))
    ∧ ∀ b, (save_summary_to_file fs doc filename b).2
      = (save_summary_to_file fs doc filename .ok).2 :=
  ⟨readFile_writeWhole_self fs filename doc, fun _ => rfl,
   readFile_writeWhole_self fs filename _, fun _ => rfl⟩

/-- C8 counterexample: two daily runs on the same date write the same
filename, so after both runs the file system holds a single document - the
second run's - and the first run's (different) document is gone, refuting
"each leave their own persisted document with no mutation of the earlier
one" for same-date runs. -/
theorem same_date_overwrite_counterexample :
    schedule_daily_summary
        (schedule_daily_summary [] 0 ⟨2025, 1, 2⟩ (.available []) (fun _ => .error) .ok)
        10 ⟨2025, 1, 2⟩ (.available [⟨"t", "Work", "", 5⟩])
        (fun _ => .success (.object (some "S"))) .ok
      = [(summary_filename "daily" ⟨2025, 1, 2⟩,
          json_dumps_indent4 (generate_daily_summary 10 (.available [⟨"t", "Work", "", 5⟩])
            (fun _ => .success (.object (some "S")))))]
    ∧ json_dumps_indent4 (generate_daily_summary 10 (.available [⟨"t", "Work", "", 5⟩])
          (fun _ => .success (.object (some "S"))))
      ≠ json_dumps_indent4 (generate_daily_summary 0 (.available []) (fun _ => .error)) := by
  refine ⟨rfl, by decide⟩

/-- C8 (amended): runs of the daily job on distinct (valid) dates write
distinct filenames, so after two such runs each run's whole document is
still in place under its own filename - a later run of a different date
never overwrites an earlier run's document. -/
theorem distinct_date_documents_amended (fs : FS) (now1 now2 : Int) (d1 d2 : Date)
    (st1 st2 : StoreState) (o1 o2 : String → ServiceOutcome)
    (h1 : ValidDate d1) (h2 : ValidDate d2) (hne : d1 ≠ d2) :
    readFile (schedule_daily_summary (schedule_daily_summary fs now1 d1 st1 o1 .ok)
        now2 d2 st2 o2 .ok) (summary_filename "daily" d1)
      = some (json_dumps_indent4 (generate_daily_summary now1 st1 o1))
    ∧ readFile (schedule_daily_summary (schedule_daily_summary fs now1 d1 st1 o1 .ok)
        now2 d2 st2 o2 .ok) (summary_filename "daily" d2)
      = some (json_dumps_indent4 (generate_daily_summary now2 st2 o2)) := by
  simp only [schedule_daily_summary, save_summary_to_file]
  constructor
  · rw [readFile_writeWhole_ne _ _ _ _ (summary_filename_inj "daily" h1 h2 hne)]
    exact readFile_writeWhole_self fs _ _
  · exact readFile_writeWhole_self _ _ _

/-- Witness for C8 at two concrete consecutive dates. -/
theorem distinct_date_documents_witness :
    ValidDate ⟨2025, 1, 1⟩ ∧ ValidDate ⟨2025, 1, 2⟩
    ∧ (⟨2025, 1, 1⟩ : Date) ≠ ⟨2025, 1, 2⟩
    ∧ (readFile (schedule_daily_summary
          (schedule_daily_summary [] 0 ⟨2025, 1, 1⟩ (.available []) (fun _ => .error) .ok)
          0 ⟨2025, 1, 2⟩ (.available []) (fun _ => .error) .ok)
        (summary_filename "daily" ⟨2025, 1, 1⟩)
        = some (json_dumps_indent4 (generate_daily_summary 0 (.available []) (fun _ => .error)))
      ∧ readFile (schedule_daily_summary
          (schedule_daily_summary [] 0 ⟨2025, 1, 1⟩ (.available []) (fun _ => .error) .ok)
          0 ⟨2025, 1, 2⟩ (.available []) (fun _ => .error) .ok)
        (summary_filename "daily" ⟨2025, 1, 2⟩)
        = some (json_dumps_indent4 (generate_daily_summary 0 (.available []) (fun _ => .error)))) :=
  ⟨by decide, by decide, by decide,
   distinct_date_documents_amended [] 0 0 ⟨2025, 1, 1⟩ ⟨2025, 1, 2⟩ (.available [])
     (.available []) (fun _ => .error) (fun _ => .error) (by decide) (by decide) (by decide)⟩

/-- C9 counterexample: a manual daily trigger arriving while a job of the
same kind is Running is not rejected: `send_summary` with the running flag
set still processes the request (here landing in its error reply, since
bot.py's daily branch hits the missing import) and never returns the busy
signal; the monthly path likewise completes instead of rejecting. -/
theorem manual_trigger_not_rejected_counterexample :
    send_summary true "daily" (some [])
      = .errorReply "Sorry, I couldn't generate the daily summary. Please try again later."
    ∧ send_summary true "daily" (some []) ≠ .busy
    ∧ send_summary true "monthly" (some [⟨"Work", "hello", "2025-01-02"⟩]) ≠ .busy :=
  ⟨rfl, by decide, by decide⟩

/-- C9 (amended): the code has no reentrancy guard: a manual trigger is
handled identically whether or not a job of the same kind is Running, and
its reply is never the busy signal. -/
theorem manual_trigger_never_busy (running : Bool) (summary_type : String)
    (rows : Option (List BotRow)) :
    send_summary running summary_type rows = send_summary false summary_type rows
    ∧ send_summary running summary_type rows ≠ .busy := by
  refine ⟨rfl, ?_⟩
  unfold send_summary
  split
  · simp
  · split
    · simp
    · split <;> simp

/-- C10: an entry whose categories string repeats the same vocabulary label
(after normalisation) gets its text appended once per occurrence: the pool
holds one copy of the text for every token that normalises to the
category. -/
theorem duplicate_tokens_append_per_occurrence (t cats kw : String) (ts : Int) (c : String)
    (hc : c ∈ allowedKeys) (hcats : cats ≠ "") :
    dictGet (group_entries_by_category [⟨t, cats, kw, ts⟩]) c
      = List.replicate ((entryCategories cats).filter (fun tok => tok == c)).length t := by
  rw [dictGet_group_eq_poolSpec _ _ hc]
  show entryContrib c ⟨t, cats, kw, ts⟩ ++ poolSpec c [] = _
  simp only [poolSpec, List.append_nil, entryContrib]
  rw [if_neg hcats]
  exact map_const_replicate t _

/-- Witness for C10: the categories string "Work, work" normalises to two
occurrences of Work, and the entry's text appears twice in the Work pool. -/
theorem duplicate_tokens_witness :
    ("Work" ∈ allowedKeys) ∧ ("Work, work" : String) ≠ ""
    ∧ dictGet (group_entries_by_category [⟨"txt", "Work, work", "", 0⟩]) "Work"
      = List.replicate ((entryCategories "Work, work").filter (fun tok => tok == "Work")).length "txt"
    ∧ dictGet (group_entries_by_category [⟨"txt", "Work, work", "", 0⟩]) "Work" = ["txt", "txt"] :=
  ⟨by decide, by decide,
   duplicate_tokens_append_per_occurrence "txt" "Work, work" "" 0 "Work" (by decide) (by decide),
   by decide⟩

end SecondBrain
